import Mathlib

/-!
Verification of the hyperapp-debug-trace middleware
(`generateMiddleware` / `interceptedDispatch` / `wrapAction` / `wrapEffect` /
`getFunctionName` in the intercept module, and `traceDispatch` /
`parseActionReturnValue` / `postAction` in `src/trace.js`).

The JavaScript code is shallowly embedded.  JavaScript values are modelled
by the inductive `JSVal`.  Function values are represented structurally:
`JSVal.base` is a plain named function (its runtime behaviour is supplied by
an environment indexed by its `code` field), while `JSVal.wrapA` and
`JSVal.wrapE` are the closures created by `wrapAction` and `wrapEffect`.
The `$isWrapped` marker of the source is `true` by construction on the two
wrapper constructors and is the `marked` field on `base`.

Reference identity of mutable objects is modelled by an identity tag:
`obj` is an opaque host object (the traced code never reads fields of a
state or props object), and `arr` carries the tag `oid` naming the array
object together with its current contents, so an in-place mutation of an
array is a value with the same `oid` and different elements.  Strict
equality (===) is modelled by structural equality of `JSVal`; distinct
source objects are modelled with distinct tags.

Hook functions (`preAction`, `postAction`, `preEffect`, `postEffect`) are
the logging functions of `src/trace.js`; invoking one emits exactly one log
record, modelled by `Event`.  Presence of a hook is a `Bool` (the source
tests hooks only for truthiness).  Throwing JavaScript code is modelled
with `Except String`.
-/

inductive JSVal where
  | undefined : JSVal
  | null : JSVal
  | bool (b : Bool) : JSVal
  | num (n : Int) : JSVal
  | str (s : String) : JSVal
  | obj (oid : Nat) : JSVal
  | arr (oid : Nat) (elems : List JSVal) : JSVal
  | base (name : String) (marked : Bool) (code : Nat) : JSVal
  | wrapA (pre post : Bool) (inner : JSVal) : JSVal
  | wrapE (pre post : Bool) (inner : JSVal) : JSVal

mutual

/-- Strict equality (===) on modelled JavaScript values: by value on
primitives, by structure on objects and functions (distinct source objects
are modelled with distinct identity tags, so structural equality coincides
with reference equality on well-formed models). -/
def JSVal.beq : JSVal → JSVal → Bool
  | .undefined, .undefined => true
  | .null, .null => true
  | .bool a, .bool b => a == b
  | .num a, .num b => a == b
  | .str a, .str b => a == b
  | .obj i, .obj j => i == j
  | .arr i es, .arr j fs => i == j && JSVal.beqList es fs
  | .base n m c, .base n2 m2 c2 => n == n2 && m == m2 && c == c2
  | .wrapA p q f, .wrapA p2 q2 f2 => p == p2 && q == q2 && JSVal.beq f f2
  | .wrapE p q f, .wrapE p2 q2 f2 => p == p2 && q == q2 && JSVal.beq f f2
  | _, _ => false

/-- Element-wise strict equality of array contents. -/
def JSVal.beqList : List JSVal → List JSVal → Bool
  | [], [] => true
  | x :: xs, y :: ys => JSVal.beq x y && JSVal.beqList xs ys
  | _, _ => false

end

/-- The JavaScript typeof test for functions. -/
def isFunction : JSVal → Bool
  | .base _ _ _ => true
  | .wrapA _ _ _ => true
  | .wrapE _ _ _ => true
  | _ => false

/-- The JavaScript test `Array.isArray(v)`. -/
def isArray : JSVal → Bool
  | .arr _ _ => true
  | _ => false

/-- Truthiness of the `$isWrapped` property of a value: `true` by
construction on the closures created by `wrapAction` / `wrapEffect`, the
`marked` field on a plain function, and `undefined` (falsy) on every other
value that can carry properties. -/
def jsMarked : JSVal → Bool
  | .base _ m _ => m
  | .wrapA _ _ _ => true
  | .wrapE _ _ _ => true
  | _ => false

/-- Reading `v[$isWrapped]`: throws a TypeError on `undefined` and `null`,
otherwise yields the marker truthiness `jsMarked`. -/
def readMarker : JSVal → Except String Bool
  | .undefined => .error "TypeError: cannot read properties of undefined"
  | .null => .error "TypeError: cannot read properties of null"
  | v => .ok (jsMarked v)

/-- The slice(-1) of a list: a one-element list holding the last element,
or the empty list when the input is empty. -/
def sliceLast (l : List String) : List String :=
  match l.reverse with
  | [] => []
  | x :: _ => [x]

/-- Accumulator for jsSplit: characters of the current segment are carried
in reverse. -/
def jsSplitAux : List Char → List Char → List String
  | [], cur => [String.mk cur.reverse]
  | c :: rest, cur =>
    if c = ' ' then String.mk cur.reverse :: jsSplitAux rest []
    else jsSplitAux rest (c :: cur)

/-- The JavaScript call `s.split(' ')`: cut the string at every single
space character; the empty string yields the one-element list of the empty
segment. -/
def jsSplit (s : String) : List String :=
  jsSplitAux s.data []

/-- The declared `name` property of a function value.  The closures created
by `wrapAction` and `wrapEffect` are the named function declarations
`wrappedAction` and `wrappedEffect` in the source. -/
def declaredName : JSVal → String
  | .base n _ _ => n
  | .wrapA _ _ _ => "wrappedAction"
  | .wrapE _ _ _ => "wrappedEffect"
  | _ => ""

/-- getFunctionName from the intercept module:
`return fn.name.split(' ').slice(-1);`.
Note that slice(-1) yields a one-element ARRAY holding the trailing token,
not the token itself (the fresh array is given identity tag 0; its identity
is never compared).  On a non-function the source would throw (reading
`.name` of undefined/null, or calling `.split` on the undefined `name`
property of a value that has none). -/
def getFunctionName (v : JSVal) : Except String JSVal :=
  match v with
  | .base _ _ _ => .ok (.arr 0 ((sliceLast (jsSplit (declaredName v))).map JSVal.str))
  | .wrapA _ _ _ => .ok (.arr 0 ((sliceLast (jsSplit (declaredName v))).map JSVal.str))
  | .wrapE _ _ _ => .ok (.arr 0 ((sliceLast (jsSplit (declaredName v))).map JSVal.str))
  | _ => .error "TypeError: fn.name is not usable"

/-- The pure body of wrapAction once the marker read has succeeded:
`if (!actionFn[$isWrapped] && (pre || post))` create the marked
`wrappedAction` closure, else return the input unchanged. -/
def wrapAfn (pre post : Bool) (v : JSVal) : JSVal :=
  if !jsMarked v && (pre || post) then .wrapA pre post v else v

/-- The pure body of wrapEffect once the marker read has succeeded. -/
def wrapEfn (pre post : Bool) (v : JSVal) : JSVal :=
  if !jsMarked v && (pre || post) then .wrapE pre post v else v

/-- wrapAction from the intercept module.  Reading the `$isWrapped`
property throws when the argument is undefined or null; otherwise the
function either creates the marked wrapper closure or returns its argument
unchanged. -/
def wrapAction (pre post : Bool) (v : JSVal) : Except String JSVal :=
  match readMarker v with
  | .error e => .error e
  | .ok _ => .ok (wrapAfn pre post v)

/-- wrapEffect from the intercept module. -/
def wrapEffect (pre post : Bool) (v : JSVal) : Except String JSVal :=
  match readMarker v with
  | .error e => .error e
  | .ok _ => .ok (wrapEfn pre post v)

/-- One log record emitted by a configured hook function. -/
inductive Event where
  | preA (name state props : JSVal) : Event
  | postA (name state props rv : JSVal) : Event
  | preE (name props : JSVal) : Event
  | postE (name props : JSVal) : Event

/-- Invocation of a modelled function value on two arguments, in a
behaviour environment `env` giving the result (or thrown error) of each
plain function by its `code` index.  Returns the list of hook log records
emitted, and the return value or thrown error.

The `wrapA` case is the `wrappedAction` closure of the source: it derives
the name of the wrapped function, calls the pre hook if configured, calls
the wrapped function, calls the post hook if configured, and returns the
wrapped result unchanged; an error from the wrapped function propagates
before the post hook runs.

The `wrapE` case is the `wrappedEffect` closure: pre hook on (name, props),
the wrapped call, post hook on (name, props), and then `return rv` — where
`rv` is an undeclared identifier in the source, so the closure itself
throws a ReferenceError after the hooks have run. -/
def invoke (env : Nat → JSVal → JSVal → Except String JSVal) :
    JSVal → JSVal → JSVal → List Event × Except String JSVal
  | .base _ _ c, a, b => ([], env c a b)
  | .wrapA pre post f, a, b =>
    match getFunctionName f with
    | .error e => ([], .error e)
    | .ok fname =>
      let pres := if pre then [Event.preA fname a b] else []
      let inner := invoke env f a b
      match inner.2 with
      | .ok rv =>
        (pres ++ inner.1 ++ (if post then [Event.postA fname a b rv] else []), .ok rv)
      | .error e => (pres ++ inner.1, .error e)
  | .wrapE pre post f, a, b =>
    match getFunctionName f with
    | .error e => ([], .error e)
    | .ok fname =>
      let pres := if pre then [Event.preE fname b] else []
      let inner := invoke env f a b
      match inner.2 with
      | .ok _ =>
        (pres ++ inner.1 ++ (if post then [Event.postE fname b] else []),
         .error "ReferenceError: rv is not defined")
      | .error e => (pres ++ inner.1, .error e)
  | _, _, _ => ([], .error "TypeError: not a function")

/-- Reading `t[0]` in JavaScript: throws on undefined/null, indexes into an
array (undefined when empty), indexes into a string, and yields undefined
for every other value (opaque objects are modelled without numeric
properties; functions and primitives have none). -/
def readIndex0 : JSVal → Except String JSVal
  | .undefined => .error "TypeError: cannot read properties of undefined"
  | .null => .error "TypeError: cannot read properties of null"
  | .arr _ es => .ok (es.headD .undefined)
  | .str s => .ok (if s.isEmpty then .undefined else .str (s.take 1))
  | _ => .ok .undefined

/-- Writing `t[0] = w` in JavaScript strict mode (the modules are ES
modules): mutates an array in place, throws on undefined/null and on
primitives, and is an untracked property write on opaque objects and
functions. -/
def writeIndex0 (t w : JSVal) : Except String JSVal :=
  match t with
  | .arr oid [] => .ok (.arr oid [w])
  | .arr oid (_ :: rest) => .ok (.arr oid (w :: rest))
  | .obj i => .ok (.obj i)
  | .base n m c => .ok (.base n m c)
  | .wrapA p q f => .ok (.wrapA p q f)
  | .wrapE p q f => .ok (.wrapE p q f)
  | .undefined => .error "TypeError: cannot set properties of undefined"
  | .null => .error "TypeError: cannot set properties of null"
  | _ => .error "TypeError: cannot create property 0 on a primitive"

/-- The configuration destructured by generateMiddleware:
`{ onStateChange, preAction, postAction, preEffect, postEffect }`.
Hooks are tracked by their truthiness; onStateChange is kept as a value
(undefined when the key was absent). -/
structure MwConfig where
  preA : Bool
  postA : Bool
  preE : Bool
  postE : Bool
  onStateChange : JSVal

/-- JavaScript truthiness of a value, as tested by `if (... && onStateChange)`. -/
def jsTruthy : JSVal → Bool
  | .undefined => false
  | .null => false
  | .bool b => b
  | .num n => n ≠ 0
  | .str s => !s.isEmpty
  | _ => true

/-- The trailing conditional of interceptedDispatch:
`if (newState !== undefined && onStateChange) dispatch(onStateChange);` —
the follow-up call made into the real dispatch function after forwarding,
as a (target, argument) pair list (the argument of a one-argument dispatch
call is undefined). -/
def followUp (osc newState : JSVal) : List (JSVal × JSVal) :=
  match newState with
  | .undefined => []
  | _ => if jsTruthy osc then [(osc, .undefined)] else []

/-- The `for (let i = 1; i < action.length; i++)` loop of Signature 2 in
interceptedDispatch: for each element after the first, read `tuple[0]`,
wrap it with wrapEffect, and write the wrapper back to `tuple[0]` in
place.  Any thrown TypeError propagates. -/
def wrapTuples (cfg : MwConfig) : List JSVal → Except String (List JSVal)
  | [] => .ok []
  | t :: rest =>
    match readIndex0 t with
    | .error e => .error e
    | .ok h =>
      match wrapEffect cfg.preE cfg.postE h with
      | .error e => .error e
      | .ok w =>
        match writeIndex0 t w with
        | .error e => .error e
        | .ok t2 =>
          match wrapTuples cfg rest with
          | .error e => .error e
          | .ok r2 => .ok (t2 :: r2)

/-- interceptedDispatch from generateMiddleware in the intercept module.
Given the middleware configuration and the two arguments of the dispatch
call, returns the list of calls made into the real dispatch function
(each a (target, argument) pair, in order), or the error thrown before
any dispatch call could be made.

Signature 3 (a function): the action is replaced by its wrapped version.
Signature 4 (array with callable head): element 0 is replaced in place.
Signature 2 (array with non-callable head): newState is element 0 and
each remaining element has its head wrapped with wrapEffect in place.
Signature 1 (anything else): newState is the target itself.
Afterwards the original dispatch is called with the (possibly mutated)
target and the exact original second argument, followed by
`dispatch(onStateChange)` when newState is not undefined and onStateChange
is truthy. -/
def interceptedDispatch (cfg : MwConfig) (target props : JSVal) :
    Except String (List (JSVal × JSVal)) :=
  if isFunction target then
    match wrapAction cfg.preA cfg.postA target with
    | .error e => .error e
    | .ok a2 => .ok [(a2, props)]
  else
    match target with
    | .arr oid elems =>
      if isFunction (elems.headD .undefined) then
        match wrapAction cfg.preA cfg.postA (elems.headD .undefined) with
        | .error e => .error e
        | .ok w => .ok [(.arr oid (w :: elems.drop 1), props)]
      else
        match wrapTuples cfg (elems.drop 1) with
        | .error e => .error e
        | .ok tl =>
          .ok ((.arr oid (elems.take 1 ++ tl), props)
               :: followUp cfg.onStateChange (elems.headD .undefined))
    | v => .ok ((v, props) :: followUp cfg.onStateChange v)

/-- The middleware configuration produced by `src/trace.js`: it calls
generateMiddleware with the four logging hooks and with the state-change
builder under the key `buildStateChangeEffect` — a key the destructuring
pattern of generateMiddleware does not contain — so the destructured
`onStateChange` is undefined. -/
def traceCfg : MwConfig :=
  { preA := true, postA := true, preE := true, postE := true,
    onStateChange := .undefined }

/-- The record built by parseActionReturnValue: a JavaScript object whose
properties are set in some branches only.  `none` models an absent
property; `some JSVal.undefined` models a property that was assigned the
value undefined. -/
structure Parsed where
  state : Option JSVal
  action : Option JSVal
  effects : Option (List JSVal)

/-- parseActionReturnValue from `src/trace.js`: if the value is an array
whose first element is callable, the whole value is recorded as `action`;
if it is an array whose first element is not callable, element 0 is
recorded as `state` and `slice(1)` as `effects`; otherwise the value
itself is recorded as `state`. -/
def parseActionReturnValue (rv : JSVal) : Parsed :=
  match rv with
  | .arr oid es =>
    if isFunction (es.headD .undefined) then
      { state := none, action := some (.arr oid es), effects := none }
    else
      { state := some (es.headD .undefined), action := none,
        effects := some (es.drop 1) }
  | v => { state := some v, action := none, effects := none }

/-- Reading a possibly-absent object property in JavaScript: an absent
property reads as undefined. -/
def propRead (o : Option JSVal) : JSVal :=
  o.getD .undefined

/-- The three possible state lines of the post-action log record. -/
inductive StateLine where
  | unchanged : StateLine
  | newState (v : JSVal) : StateLine
  | omitted : StateLine

/-- The state-reporting logic of postAction in `src/trace.js`:
`if (returnedProps.state === state)` log "(unchanged)",
`else if (returnedProps.state !== undefined)` log the value,
else log no state line at all. -/
def stateLine (state rv : JSVal) : StateLine :=
  let ps := propRead (parseActionReturnValue rv).state
  if JSVal.beq ps state then .unchanged
  else if JSVal.beq ps .undefined then .omitted
  else .newState ps

/-- A well-formed effect tuple: an array whose first element is callable,
as in the shape `[Effect, argument]` of the spec. -/
def goodTuple : JSVal → Bool
  | .arr _ (g :: _) => isFunction g
  | _ => false

/-- The four dispatch shapes of the spec: a callable (Shape A), an array
with a callable head (Shape B), a non-empty array with a non-callable head
whose remaining elements are effect tuples (Shape C), or a bare
non-callable non-array value (Shape D). -/
def goodTarget : JSVal → Bool
  | .arr _ [] => false
  | .arr _ (h :: rest) => isFunction h || rest.all goodTuple
  | _ => true

/-- Modelled from the spec: substitution of the head of an effect tuple by
its traced wrapper, with every other element of the tuple left unchanged
and the tuple object itself (its identity tag) preserved. -/
def tupleSub (cfg : MwConfig) : JSVal → JSVal
  | .arr tid (g :: tl) => .arr tid (wrapEfn cfg.preE cfg.postE g :: tl)
  | t => t

/-- Modelled from the spec (section 4.1): member-wise substitution of the
action or effect functions contained in the dispatch target by their
traced wrappers, leaving every other element unchanged — a callable target
is wrapped whole; an array with a callable head has element 0 wrapped; an
array with a non-callable head has the head of each later element wrapped;
a bare state is untouched. -/
def specSubstitute (cfg : MwConfig) (target : JSVal) : JSVal :=
  if isFunction target then wrapAfn cfg.preA cfg.postA target
  else
    match target with
    | .arr oid (h :: rest) =>
      if isFunction h then .arr oid (wrapAfn cfg.preA cfg.postA h :: rest)
      else .arr oid (h :: rest.map (tupleSub cfg))
    | v => v

/-- Modelled from the spec: the new state value a dispatch shape carries —
element 0 for a state-plus-effects array, the target itself for a bare
state, and undefined for the two action shapes. -/
def specNewState (target : JSVal) : JSVal :=
  if isFunction target then .undefined
  else
    match target with
    | .arr _ es =>
      if isFunction (es.headD .undefined) then .undefined else es.headD .undefined
    | v => v

/-- Modelled from the spec (sections 4.1 and 8): the calls the intercepted
dispatch is expected to make into the real dispatch function — one
forwarding call with the member-wise substituted target and the exact
original second argument, followed by the state-change follow-up call when
one is configured and the shape carries a defined new state. -/
def specCalls (cfg : MwConfig) (target props : JSVal) : List (JSVal × JSVal) :=
  (specSubstitute cfg target, props) :: followUp cfg.onStateChange (specNewState target)

theorem wrapAction_fn (p q : Bool) (v : JSVal) (h : isFunction v = true) :
    wrapAction p q v = .ok (wrapAfn p q v) := by
  cases v <;> simp_all [isFunction, wrapAction, readMarker]

theorem wrapEffect_fn (p q : Bool) (v : JSVal) (h : isFunction v = true) :
    wrapEffect p q v = .ok (wrapEfn p q v) := by
  cases v <;> simp_all [isFunction, wrapEffect, readMarker]

theorem wrapTuples_good (cfg : MwConfig) :
    ∀ ts : List JSVal, (∀ x ∈ ts, goodTuple x = true) →
      wrapTuples cfg ts = .ok (ts.map (tupleSub cfg))
  | [], _ => rfl
  | t :: rest, h => by
    have h1 := h t (List.mem_cons_self t rest)
    have h2 : ∀ x ∈ rest, goodTuple x = true :=
      fun x hx => h x (List.mem_cons_of_mem t hx)
    match t, h1 with
    | .arr tid (g :: tl), h1 =>
      have hg : isFunction g = true := by simpa [goodTuple] using h1
      simp [wrapTuples, readIndex0, wrapEffect_fn _ _ _ hg, writeIndex0, tupleSub,
            wrapTuples_good cfg rest h2]

/-- C1 (amended): for every call interceptedDispatch(target, props) in
which target is one of the four dispatch shapes, the intercepted dispatch
makes exactly one forwarding call into the wrapped real dispatch function
with the same shape and the exact original second argument props
unchanged, differing from a direct call only in that action/effect
function members are replaced by their traced wrappers, with no
substitution performed on props itself; additionally, when a state-change
handler is configured and the resolved shape carries a defined new state
(Shape C or Shape D), exactly one follow-up call dispatch(handler) is made
after the forwarding call. -/
theorem claim1_amended (cfg : MwConfig) (target props : JSVal)
    (h : goodTarget target = true) :
    interceptedDispatch cfg target props = .ok (specCalls cfg target props) := by
  cases target with
  | base n m c =>
    simp [interceptedDispatch, isFunction, wrapAction_fn, specCalls, specSubstitute,
          specNewState, followUp]
  | wrapA p q f =>
    simp [interceptedDispatch, isFunction, wrapAction_fn, specCalls, specSubstitute,
          specNewState, followUp]
  | wrapE p q f =>
    simp [interceptedDispatch, isFunction, wrapAction_fn, specCalls, specSubstitute,
          specNewState, followUp]
  | undefined =>
    simp [interceptedDispatch, isFunction, specCalls, specSubstitute, specNewState, followUp]
  | null =>
    simp [interceptedDispatch, isFunction, specCalls, specSubstitute, specNewState, followUp]
  | bool b =>
    simp [interceptedDispatch, isFunction, specCalls, specSubstitute, specNewState, followUp]
  | num n =>
    simp [interceptedDispatch, isFunction, specCalls, specSubstitute, specNewState, followUp]
  | str s =>
    simp [interceptedDispatch, isFunction, specCalls, specSubstitute, specNewState, followUp]
  | obj i =>
    simp [interceptedDispatch, isFunction, specCalls, specSubstitute, specNewState, followUp]
  | arr oid elems =>
    cases elems with
    | nil => simp [goodTarget] at h
    | cons hd rest =>
      by_cases hf : isFunction hd = true
      · simp [interceptedDispatch, hf, wrapAction_fn _ _ _ hf, specCalls,
              specSubstitute, specNewState, followUp,
              show isFunction (JSVal.arr oid (hd :: rest)) = false from rfl]
      · simp [goodTarget, hf] at h
        simp [interceptedDispatch, hf, wrapTuples_good cfg rest h, specCalls,
              specSubstitute, specNewState,
              show isFunction (JSVal.arr oid (hd :: rest)) = false from rfl]

/-- A middleware configuration with all four hooks and a configured
state-change handler, as generateMiddleware itself supports. -/
def oscCfg : MwConfig :=
  { preA := true, postA := true, preE := true, postE := true,
    onStateChange := .base "handler" false 50 }

/-- C1 counterexample: with a state-change handler configured, dispatching
the bare state obj 5 makes TWO calls into the real dispatch function (the
forwarding call and the follow-up dispatch of the handler), so the
intercepted dispatch does not make exactly one call into the wrapped real
dispatch function. -/
theorem claim1_counterexample :
    interceptedDispatch oscCfg (.obj 5) .undefined
      = .ok [(.obj 5, .undefined), (.base "handler" false 50, .undefined)] ∧
    ([(JSVal.obj 5, JSVal.undefined),
      (JSVal.base "handler" false 50, JSVal.undefined)]).length = 2 :=
  ⟨rfl, rfl⟩

/-- C1 witness: the amended theorem at a concrete Shape C input. -/
theorem claim1_witness :
    goodTarget (.arr 3 [.obj 1, .arr 4 [.base "fx" false 0, .obj 2]]) = true ∧
    interceptedDispatch traceCfg (.arr 3 [.obj 1, .arr 4 [.base "fx" false 0, .obj 2]]) (.obj 9)
      = .ok (specCalls traceCfg (.arr 3 [.obj 1, .arr 4 [.base "fx" false 0, .obj 2]]) (.obj 9)) :=
  ⟨rfl, claim1_amended traceCfg (.arr 3 [.obj 1, .arr 4 [.base "fx" false 0, .obj 2]]) (.obj 9) rfl⟩

/-- C2: for every value v, parseActionReturnValue yields state = v (action
and effects absent) when v is not an array; action = v (state and effects
absent) when v is an array whose first element is callable; and
state = v[0] with effects = v.slice(1) (action absent) when v is an array
whose first element is not callable. -/
theorem claim2 (v : JSVal) (oid : Nat) (es : List JSVal) :
    (isArray v = false →
      parseActionReturnValue v = { state := some v, action := none, effects := none }) ∧
    (isFunction (es.headD .undefined) = true →
      parseActionReturnValue (.arr oid es)
        = { state := none, action := some (.arr oid es), effects := none }) ∧
    (isFunction (es.headD .undefined) = false →
      parseActionReturnValue (.arr oid es)
        = { state := some (es.headD .undefined), action := none,
            effects := some (es.drop 1) }) := by
  refine ⟨fun h => ?_, fun h => ?_, fun h => ?_⟩
  · cases v <;> simp_all [isArray, parseActionReturnValue]
  · simp_all [parseActionReturnValue]
  · simp_all [parseActionReturnValue]

/-- C2 witness: the three branches at concrete inputs. -/
theorem claim2_witness :
    parseActionReturnValue (.num 3)
      = { state := some (.num 3), action := none, effects := none } ∧
    parseActionReturnValue (.arr 1 [.base "a" false 0, .obj 2])
      = { state := none, action := some (.arr 1 [.base "a" false 0, .obj 2]),
          effects := none } ∧
    parseActionReturnValue (.arr 1 [.obj 3, .arr 2 [.base "fx" false 1, .obj 4]])
      = { state := some (.obj 3), action := none,
          effects := some [.arr 2 [.base "fx" false 1, .obj 4]] } :=
  ⟨(claim2 (.num 3) 0 []).1 rfl,
   (claim2 .undefined 1 [.base "a" false 0, .obj 2]).2.1 rfl,
   (claim2 .undefined 1 [.obj 3, .arr 2 [.base "fx" false 1, .obj 4]]).2.2 rfl⟩

/-- Number of pre-action hook records in a log. -/
def countPreA (evs : List Event) : Nat :=
  (evs.filter fun e => match e with | .preA _ _ _ => true | _ => false).length

/-- Number of post-action hook records in a log. -/
def countPostA (evs : List Event) : Nat :=
  (evs.filter fun e => match e with | .postA _ _ _ _ => true | _ => false).length

/-- Number of pre-effect hook records in a log. -/
def countPreE (evs : List Event) : Nat :=
  (evs.filter fun e => match e with | .preE _ _ => true | _ => false).length

/-- Number of post-effect hook records in a log. -/
def countPostE (evs : List Event) : Nat :=
  (evs.filter fun e => match e with | .postE _ _ => true | _ => false).length

theorem wrapAfn_marked (p q : Bool) (v : JSVal) (h : jsMarked v = true) :
    wrapAfn p q v = v := by
  simp [wrapAfn, h]

theorem wrapEfn_marked (p q : Bool) (v : JSVal) (h : jsMarked v = true) :
    wrapEfn p q v = v := by
  simp [wrapEfn, h]

theorem iterate_wrapAfn_marked (p q : Bool) (v : JSVal) (h : jsMarked v = true) :
    ∀ n : Nat, (fun x => wrapAfn p q x)^[n] v = v
  | 0 => rfl
  | n + 1 => by
    rw [Function.iterate_succ_apply]
    simp only [wrapAfn_marked p q v h]
    exact iterate_wrapAfn_marked p q v h n

theorem iterate_wrapEfn_marked (p q : Bool) (v : JSVal) (h : jsMarked v = true) :
    ∀ n : Nat, (fun x => wrapEfn p q x)^[n] v = v
  | 0 => rfl
  | n + 1 => by
    rw [Function.iterate_succ_apply]
    simp only [wrapEfn_marked p q v h]
    exact iterate_wrapEfn_marked p q v h n

/-- Repeated wrapping of an unmarked plain function stabilises after the
first wrap: the k-th iterate is the single wrapper layer. -/
theorem iterate_wrapAfn_base (nm : String) (c k : Nat) (h : 1 ≤ k) :
    (fun x => wrapAfn true true x)^[k] (.base nm false c)
      = .wrapA true true (.base nm false c) := by
  obtain ⟨n, rfl⟩ := Nat.exists_eq_add_of_le h
  rw [Nat.add_comm, Function.iterate_succ_apply]
  have h1 : wrapAfn true true (JSVal.base nm false c)
      = .wrapA true true (.base nm false c) := rfl
  rw [h1]
  exact iterate_wrapAfn_marked true true (.wrapA true true (.base nm false c)) rfl n

theorem iterate_wrapEfn_base (nm : String) (c k : Nat) (h : 1 ≤ k) :
    (fun x => wrapEfn true true x)^[k] (.base nm false c)
      = .wrapE true true (.base nm false c) := by
  obtain ⟨n, rfl⟩ := Nat.exists_eq_add_of_le h
  rw [Nat.add_comm, Function.iterate_succ_apply]
  have h1 : wrapEfn true true (JSVal.base nm false c)
      = .wrapE true true (.base nm false c) := rfl
  rw [h1]
  exact iterate_wrapEfn_marked true true (.wrapE true true (.base nm false c)) rfl n

/-- C3: wrapping is idempotent.  A function already carrying the
already-wrapped marker is returned unchanged by wrapAction and wrapEffect;
consequently a plain hooked function that has passed through wrapping any
number of times, when invoked once (and returning normally), produces
exactly one pre-hook record and one post-hook record, never two — for
actions and for effects alike. -/
theorem claim3 (v : JSVal) (pre post : Bool) (nm : String) (c k : Nat)
    (env : Nat → JSVal → JSVal → Except String JSVal) (a b u : JSVal) :
    (jsMarked v = true →
      wrapAction pre post v = .ok v ∧ wrapEffect pre post v = .ok v) ∧
    (1 ≤ k → env c a b = .ok u →
      (countPreA (invoke env ((fun x => wrapAfn true true x)^[k] (.base nm false c)) a b).1 = 1 ∧
       countPostA (invoke env ((fun x => wrapAfn true true x)^[k] (.base nm false c)) a b).1 = 1) ∧
      (countPreE (invoke env ((fun x => wrapEfn true true x)^[k] (.base nm false c)) a b).1 = 1 ∧
       countPostE (invoke env ((fun x => wrapEfn true true x)^[k] (.base nm false c)) a b).1 = 1)) := by
  constructor
  · intro h
    cases v <;>
      simp_all [jsMarked, wrapAction, wrapEffect, readMarker, wrapAfn, wrapEfn]
  · intro hk henv
    rw [iterate_wrapAfn_base nm c k hk, iterate_wrapEfn_base nm c k hk]
    constructor
    · constructor <;>
        simp [invoke, getFunctionName, henv, countPreA, countPostA, List.filter]
    · constructor <;>
        simp [invoke, getFunctionName, henv, countPreE, countPostE, List.filter]

/-- C3 witness: the idempotent return at a marked function and the
single-record counts at one concrete double-wrapped action and effect. -/
theorem claim3_witness :
    (wrapAction true true (.base "m" true 9) = .ok (.base "m" true 9) ∧
     wrapEffect true true (.base "m" true 9) = .ok (.base "m" true 9)) ∧
    ((countPreA (invoke (fun _ _ _ => .ok .undefined)
        ((fun x => wrapAfn true true x)^[2] (.base "f" false 0)) .undefined .undefined).1 = 1 ∧
      countPostA (invoke (fun _ _ _ => .ok .undefined)
        ((fun x => wrapAfn true true x)^[2] (.base "f" false 0)) .undefined .undefined).1 = 1) ∧
     (countPreE (invoke (fun _ _ _ => .ok .undefined)
        ((fun x => wrapEfn true true x)^[2] (.base "f" false 0)) .undefined .undefined).1 = 1 ∧
      countPostE (invoke (fun _ _ _ => .ok .undefined)
        ((fun x => wrapEfn true true x)^[2] (.base "f" false 0)) .undefined .undefined).1 = 1)) :=
  ⟨(claim3 (.base "m" true 9) true true "f" 0 2 (fun _ _ _ => .ok .undefined)
      .undefined .undefined .undefined).1 rfl,
   (claim3 (.base "m" true 9) true true "f" 0 2 (fun _ _ _ => .ok .undefined)
      .undefined .undefined .undefined).2 (by decide) rfl⟩

/-- The behaviour environment of the end-to-end scenario: the action
`increment`, invoked with state obj 1 (the model of the host state
with count 1), returns obj 2 (the state with count 2). -/
def incEnv : Nat → JSVal → JSVal → Except String JSVal :=
  fun _ _ _ => .ok (.obj 2)

/-- C4 divergence record: wrapping the unwrapped action `increment` with
both hooks and invoking the wrapper on (obj 1, undefined) calls the
pre hook, then the action, then the post hook, in order, with the original
state, argument and result exactly as the claim describes — but the
derived-name value handed to both hooks is the one-element array
containing the string "increment" (the value getFunctionName returns),
not the bare string "increment" the claim and the JSDoc hook contract
(`name` documented as a string) state. -/
theorem claim4_codebug :
    invoke incEnv (wrapAfn true true (.base "increment" false 0)) (.obj 1) .undefined
      = ([.preA (.arr 0 [.str "increment"]) (.obj 1) .undefined,
          .postA (.arr 0 [.str "increment"]) (.obj 1) .undefined (.obj 2)],
         .ok (.obj 2)) ∧
    JSVal.arr 0 [.str "increment"] ≠ JSVal.str "increment" :=
  ⟨rfl, fun hcontra => JSVal.noConfusion hcontra⟩

/-- C5 divergence record: the effect `fx` invoked through its hooked
wrapper.  The wrapped effect itself returns normally (environment result
ok), the pre and post hooks run with the derived name and the original
argument — and then the wrapper throws a ReferenceError of its own,
because the `wrappedEffect` closure of the source ends in `return rv`
with `rv` never declared.  The wrapper therefore does not have the
identical calling contract the claim states. -/
theorem claim5_codebug :
    invoke (fun _ _ _ => .ok .undefined)
        (wrapEfn true true (.base "fx" false 0)) (.obj 9) (.obj 7)
      = ([.preE (.arr 0 [.str "fx"]) (.obj 7), .postE (.arr 0 [.str "fx"]) (.obj 7)],
         .error "ReferenceError: rv is not defined") :=
  rfl

/-- C6 counterexample: the malformed target [0, null] (an array whose
element 1 is not an effect tuple) makes interceptedDispatch throw a
TypeError — reading `tuple[0]` of null — instead of passing through. -/
theorem claim6_counterexample :
    interceptedDispatch traceCfg (.arr 7 [.num 0, .null]) .undefined
      = .error "TypeError: cannot read properties of null" :=
  rfl

/-- C6 (amended): an empty-array target is handled without error as a
passthrough — nothing is wrapped, the array is forwarded unchanged with
the original second argument, and no state-change follow-up occurs (the
recorded new state is the undefined element 0); but interceptedDispatch
is not error-free on every malformed array: an array whose later elements
are not index-assignable tuples makes it throw. -/
theorem claim6_amended (cfg : MwConfig) (props : JSVal) (oid : Nat) :
    interceptedDispatch cfg (.arr oid []) props = .ok [(.arr oid [], props)] := by
  simp [interceptedDispatch, followUp, wrapTuples, isFunction,
        show isFunction (JSVal.arr oid []) = false from rfl]

/-- C7 divergence record: getFunctionName keeps the trailing
space-separated token of the declared function name — "bound foo" and
"bound bound foo" both yield the token "foo" and an anonymous function
yields the empty token, exactly as the claim describes — but the value
returned is the one-element array produced by slice(-1), not the bare
string its own JSDoc (`@return {string}`) and the claim state. -/
theorem claim7_codebug :
    getFunctionName (.base "bound foo" false 0) = .ok (.arr 0 [.str "foo"]) ∧
    getFunctionName (.base "bound bound foo" false 0) = .ok (.arr 0 [.str "foo"]) ∧
    getFunctionName (.base "" false 0) = .ok (.arr 0 [.str ""]) ∧
    JSVal.arr 0 [.str "foo"] ≠ JSVal.str "foo" :=
  ⟨rfl, rfl, rfl, fun hcontra => JSVal.noConfusion hcontra⟩

/-- C8 divergence record: the state-change facility is never exercised.
Dispatching the states obj 1 and then obj 2 through the traceDispatch
middleware produces exactly the forwarding call each time and no follow-up
dispatch at all — `src/trace.js` passes its state-change builder under the
key `buildStateChangeEffect`, which generateMiddleware does not
destructure, so its `onStateChange` is undefined.  And even a directly
configured handler (oscCfg) is dispatched bare, as `dispatch(handler)`
with argument undefined: no record {from: previous, to: current} is built
anywhere in generateMiddleware, and no ledger is updated. -/
theorem claim8_codebug :
    interceptedDispatch traceCfg (.obj 1) .undefined = .ok [(.obj 1, .undefined)] ∧
    interceptedDispatch traceCfg (.obj 2) .undefined = .ok [(.obj 2, .undefined)] ∧
    interceptedDispatch oscCfg (.obj 1) .undefined
      = .ok [(.obj 1, .undefined), (.base "handler" false 50, .undefined)] :=
  ⟨rfl, rfl, rfl⟩

theorem beq_undefined_left (s : JSVal) :
    JSVal.beq .undefined s = true ↔ s = .undefined := by
  cases s <;> simp [JSVal.beq]

/-- C9 counterexample: an action invoked with state undefined returns the
action-chain value [next, obj 4].  The parsed record has its state
property absent, yet the log record marks the state "(unchanged)" — the
record does not distinguish "state omitted" (which the claim says yields
no state line at all) from "state identical to input". -/
theorem claim9_counterexample :
    stateLine .undefined (.arr 3 [.base "next" false 1, .obj 4]) = .unchanged ∧
    (parseActionReturnValue (.arr 3 [.base "next" false 1, .obj 4])).state = none :=
  ⟨rfl, rfl⟩

/-- C9 (amended): the post-invocation log record marks the state
"(unchanged)" exactly when the state property of the normalized record,
read the JavaScript way (undefined when absent), is strictly equal to the
state the action was invoked with.  For a defined input state the three
outcomes are distinguished as the claim describes — in particular an
absent next state yields no state line; but when the input state is
undefined and the next state is absent the record shows "(unchanged)", so
the omitted and identical cases coincide there. -/
theorem claim9_amended (s rv : JSVal) :
    (stateLine s rv = .unchanged ↔
      JSVal.beq (propRead (parseActionReturnValue rv).state) s = true) ∧
    (s ≠ .undefined → (parseActionReturnValue rv).state = none →
      stateLine s rv = .omitted) ∧
    (s = .undefined → (parseActionReturnValue rv).state = none →
      stateLine s rv = .unchanged) := by
  refine ⟨?_, ?_, ?_⟩
  · unfold stateLine
    cases hb : JSVal.beq (propRead (parseActionReturnValue rv).state) s
    · simp only [hb, Bool.false_eq_true, if_false]
      constructor
      · intro hcontra
        split at hcontra <;> exact StateLine.noConfusion hcontra
      · intro hcontra
        exact hcontra.elim
    · simp [hb]
  · intro hs hn
    unfold stateLine
    rw [hn]
    have hb : JSVal.beq .undefined s = false := by
      cases hbs : JSVal.beq .undefined s
      · rfl
      · exact absurd ((beq_undefined_left s).mp hbs) hs
    simp [hb, propRead, JSVal.beq]
  · intro hs hn
    subst hs
    unfold stateLine
    rw [hn]
    rfl

/-- C9 witness: the amended theorem at concrete inputs — an action-chain
return with a defined input state yields no state line (omitted), and with
the undefined input state yields the "(unchanged)" line. -/
theorem claim9_witness :
    stateLine (.obj 1) (.arr 5 [.base "n2" false 2, .obj 6]) = .omitted ∧
    stateLine .undefined (.arr 5 [.base "n2" false 2, .obj 6]) = .unchanged :=
  ⟨(claim9_amended (.obj 1) (.arr 5 [.base "n2" false 2, .obj 6])).2.1
     (fun hcontra => JSVal.noConfusion hcontra) rfl,
   (claim9_amended .undefined (.arr 5 [.base "n2" false 2, .obj 6])).2.2 rfl rfl⟩

theorem wrapA_ne (p q : Bool) : ∀ f : JSVal, JSVal.wrapA p q f ≠ f
  | .undefined, h => JSVal.noConfusion h
  | .null, h => JSVal.noConfusion h
  | .bool _, h => JSVal.noConfusion h
  | .num _, h => JSVal.noConfusion h
  | .str _, h => JSVal.noConfusion h
  | .obj _, h => JSVal.noConfusion h
  | .arr _ _, h => JSVal.noConfusion h
  | .base _ _ _, h => JSVal.noConfusion h
  | .wrapE _ _ _, h => JSVal.noConfusion h
  | .wrapA p2 q2 f2, h => by
    injection h with h1 h2 h3
    exact wrapA_ne p2 q2 f2 h3

theorem wrapE_ne (p q : Bool) : ∀ f : JSVal, JSVal.wrapE p q f ≠ f
  | .undefined, h => JSVal.noConfusion h
  | .null, h => JSVal.noConfusion h
  | .bool _, h => JSVal.noConfusion h
  | .num _, h => JSVal.noConfusion h
  | .str _, h => JSVal.noConfusion h
  | .obj _, h => JSVal.noConfusion h
  | .arr _ _, h => JSVal.noConfusion h
  | .base _ _ _, h => JSVal.noConfusion h
  | .wrapA _ _ _, h => JSVal.noConfusion h
  | .wrapE p2 q2 f2, h => by
    injection h with h1 h2 h3
    exact wrapE_ne p2 q2 f2 h3

/-- C10: in-place mutation of the arrays of the caller.  For a Shape B
call the forwarded value is the same array object (same identity tag oid)
with element 0 now the freshly created traced wrapper — a different
function value from the original — and every other element untouched.
For a Shape C call [state, effectTuple...] with any number of effect
tuples (each tuple given by its identity tag, its unmarked function head
and its remaining elements), the forwarded value is the same outer array
(tag oid) whose state element is untouched and in which EACH effect tuple
is the same tuple object (its tag preserved) with its element 0 replaced
by the effect wrapper — a different function value from the original
head — and its remaining elements untouched.  The second argument props
is forwarded exactly as given in both cases. -/
theorem claim10 (cfg : MwConfig) (oid : Nat) (f s props : JSVal)
    (rest : List JSVal) (ts : List (Nat × JSVal × List JSVal))
    (hf : isFunction f = true) (hfm : jsMarked f = false)
    (hA : (cfg.preA || cfg.postA) = true)
    (hE : (cfg.preE || cfg.postE) = true)
    (hs : isFunction s = false)
    (hts : ∀ p ∈ ts, isFunction p.2.1 = true ∧ jsMarked p.2.1 = false) :
    (interceptedDispatch cfg (.arr oid (f :: rest)) props
       = .ok [(.arr oid (.wrapA cfg.preA cfg.postA f :: rest), props)] ∧
     JSVal.wrapA cfg.preA cfg.postA f ≠ f) ∧
    (interceptedDispatch cfg
        (.arr oid (s :: ts.map (fun p => JSVal.arr p.1 (p.2.1 :: p.2.2)))) props
       = .ok ((.arr oid
                 (s :: ts.map (fun p =>
                    JSVal.arr p.1 (.wrapE cfg.preE cfg.postE p.2.1 :: p.2.2))),
               props)
              :: followUp cfg.onStateChange s) ∧
     ∀ p ∈ ts, JSVal.wrapE cfg.preE cfg.postE p.2.1 ≠ p.2.1) := by
  refine ⟨⟨?_, wrapA_ne _ _ f⟩, ⟨?_, fun p _ => wrapE_ne _ _ p.2.1⟩⟩
  · simp [interceptedDispatch, hf, wrapAction_fn _ _ _ hf, wrapAfn, hfm, hA,
          show isFunction (JSVal.arr oid (f :: rest)) = false from rfl]
  · have hgood : ∀ t ∈ ts.map (fun p => JSVal.arr p.1 (p.2.1 :: p.2.2)),
        goodTuple t = true := by
      intro t ht
      rw [List.mem_map] at ht
      obtain ⟨p, hp, rfl⟩ := ht
      simpa [goodTuple] using (hts p hp).1
    have hwt := wrapTuples_good cfg (ts.map (fun p => JSVal.arr p.1 (p.2.1 :: p.2.2))) hgood
    have hmap : (ts.map (fun p => JSVal.arr p.1 (p.2.1 :: p.2.2))).map (tupleSub cfg)
        = ts.map (fun p => JSVal.arr p.1 (.wrapE cfg.preE cfg.postE p.2.1 :: p.2.2)) := by
      rw [List.map_map]
      apply List.map_congr_left
      intro p hp
      simp [tupleSub, wrapEfn, (hts p hp).2, hE]
    rw [hmap] at hwt
    simp [interceptedDispatch, hs, hwt,
          show isFunction
            (JSVal.arr oid (s :: ts.map (fun p => JSVal.arr p.1 (p.2.1 :: p.2.2))))
            = false from rfl]

/-- C10 witness: the theorem at a concrete Shape B input and a concrete
Shape C input carrying TWO effect tuples, with the traceDispatch
configuration: both tuple heads end up replaced by their wrappers in the
same tuple objects, everything else unchanged. -/
theorem claim10_witness :
    (interceptedDispatch traceCfg (.arr 11 [.base "act" false 3, .obj 8]) (.obj 9)
       = .ok [(.arr 11 [.wrapA true true (.base "act" false 3), .obj 8], .obj 9)]) ∧
    (JSVal.wrapA true true (.base "act" false 3) ≠ .base "act" false 3) ∧
    (interceptedDispatch traceCfg
        (.arr 11 [.obj 1, .arr 12 [.base "fx" false 4, .obj 2],
                  .arr 13 [.base "gx" false 5, .obj 3]]) (.obj 9)
       = .ok ((.arr 11 [.obj 1, .arr 12 [.wrapE true true (.base "fx" false 4), .obj 2],
                        .arr 13 [.wrapE true true (.base "gx" false 5), .obj 3]], .obj 9)
              :: followUp traceCfg.onStateChange (.obj 1))) ∧
    (JSVal.wrapE true true (.base "fx" false 4) ≠ .base "fx" false 4) ∧
    (JSVal.wrapE true true (.base "gx" false 5) ≠ .base "gx" false 5) :=
  have h := claim10 traceCfg 11 (.base "act" false 3) (.obj 1) (.obj 9) [.obj 8]
    [(12, (.base "fx" false 4, [.obj 2])), (13, (.base "gx" false 5, [.obj 3]))]
    rfl rfl rfl rfl rfl
    (fun p hp => by
      cases hp with
      | head => exact ⟨rfl, rfl⟩
      | tail _ h2 =>
        cases h2 with
        | head => exact ⟨rfl, rfl⟩
        | tail _ h3 => cases h3)
  ⟨h.1.1, h.1.2, h.2.1,
   h.2.2 (12, (.base "fx" false 4, [.obj 2])) (List.mem_cons_self _ _),
   h.2.2 (13, (.base "gx" false 5, [.obj 3]))
     (List.mem_cons_of_mem _ (List.mem_cons_self _ _))⟩
